import Mathlib

/-!
Shallow embedding of the PDF text-extractor HTTP service (src/server.js).

JavaScript strings are modelled as lists of characters (`JSStr`); JSON response
bodies are modelled as a record of optional fields, so that the absence of a
field in a response is observable (`none`).  The external collaborators
(pdf-parse, fetch, the crypto HMAC primitive, the filesystem) are modelled as
explicit parameters of the handlers: a `ParseOutcome` stands for the result of
`await pdfParse(buffer)` (including a thrown error), a `FetchOutcome` for the
result of `await fetch(url)`, and the scratch directory for uploads is an
explicit list of file names threaded through the upload pipeline.
-/

namespace PdfServer

/-- JavaScript strings, modelled as lists of characters. -/
abbrev JSStr := List Char

/-- Characters matched by the JavaScript regexp class backslash-s
(whitespace): tab, LF, VT, FF, CR, space, NBSP, and the Unicode space
separators, line/paragraph separators and BOM. -/
def isJsWs (c : Char) : Bool :=
  c.toNat == 9 || c.toNat == 10 || c.toNat == 11 || c.toNat == 12 ||
  c.toNat == 13 || c.toNat == 32 || c.toNat == 160 || c.toNat == 0x1680 ||
  (decide (0x2000 ≤ c.toNat) && decide (c.toNat ≤ 0x200A)) ||
  c.toNat == 0x2028 || c.toNat == 0x2029 || c.toNat == 0x202F ||
  c.toNat == 0x205F || c.toNat == 0x3000 || c.toNat == 0xFEFF

/-- State machine behind `text.split(/\s+/)`: scan the characters keeping the
current token (reversed) and a flag saying whether we are inside a whitespace
run.  Entering a run emits the current token; a run at the very end emits a
trailing empty token, exactly as the JavaScript `split` does. -/
def splitWsAux : List Char → Bool → List Char → List (List Char)
  | [], true, _ => [[]]
  | [], false, cur => [cur.reverse]
  | c :: r, true, cur => if isJsWs c then splitWsAux r true cur else splitWsAux r false [c]
  | c :: r, false, cur =>
    if isJsWs c then cur.reverse :: splitWsAux r true [] else splitWsAux r false (c :: cur)

/-- Model of the JavaScript expression `text.split(/\s+/)`: split on maximal
runs of whitespace (with the leading/trailing empty-element behaviour of the
JavaScript engine). -/
def splitWsRuns (t : JSStr) : List JSStr := splitWsAux t false []

/-- The filter predicate `(word) => word.length > 0` from the handlers. -/
def posTok (w : List Char) : Bool := decide (0 < w.length)

/-- Model of `pdfData.text.split(/\s+/).filter((word) => word.length > 0).length`
(server.js lines 124-125 and 205-206). -/
def jsWordCount (t : JSStr) : Nat := ((splitWsRuns t).filter posTok).length

/-- Specification-side tokenizer, deliberately built differently from the
code: split at every single whitespace character (producing an empty piece
between adjacent whitespace characters), returning the first piece and the
remaining pieces. -/
def charSplitP : List Char → List Char × List (List Char)
  | [] => ([], [])
  | c :: r =>
    if isJsWs c then ([], (charSplitP r).1 :: (charSplitP r).2)
    else (c :: (charSplitP r).1, (charSplitP r).2)

/-- All the single-whitespace-split pieces of a string. -/
def charSplit (l : List Char) : List (List Char) := (charSplitP l).1 :: (charSplitP l).2

/-- The non-empty whitespace-delimited tokens of a string: the spec's
"split the text on runs of whitespace, discard empty tokens". -/
def specTokens (t : JSStr) : List JSStr := (charSplit t).filter posTok

/-! ### Google Drive URL resolver (server.js lines 149-160) -/

/-- The literal part of the regexp
`/https:\/\/drive\.google\.com\/file\/d\/([a-zA-Z0-9_-]+)/`. -/
def drivePat : JSStr := "https://drive.google.com/file/d/".data

/-- The direct-download form used in the rewrite. -/
def driveDownload : JSStr := "https://drive.google.com/uc?export=download&id=".data

/-- The regexp character class `[a-zA-Z0-9_-]`. -/
def isDriveIdChar (c : Char) : Bool :=
  (decide ('a' ≤ c) && decide (c ≤ 'z')) ||
  (decide ('A' ≤ c) && decide (c ≤ 'Z')) ||
  (decide ('0' ≤ c) && decide (c ≤ '9')) ||
  c == '_' || c == '-'

/-- Strip a literal pattern from the front of a string; `none` when the string
does not start with the pattern. -/
def dropLit : List Char → List Char → Option (List Char)
  | [], l => some l
  | _ :: _, [] => none
  | p :: ps, c :: cs => if c = p then dropLit ps cs else none

/-- Try to match the Drive regexp at the current position: the literal part
must be present and at least one identifier character must follow; the capture
group is greedy, taking the maximal run of identifier characters. -/
def matchDriveAt (l : List Char) : Option JSStr :=
  match dropLit drivePat l with
  | none => none
  | some rem =>
    let fid := rem.takeWhile isDriveIdChar
    if fid = [] then none else some fid

/-- The search performed by `url.match(driveRegex)`: try every position from
the left and return the first (leftmost) capture. -/
def findDriveId : List Char → Option JSStr
  | [] => none
  | c :: r =>
    match matchDriveAt (c :: r) with
    | some fid => some fid
    | none => findDriveId r

/-- Model of `convertGoogleDriveUrl` (server.js lines 149-160): rewrite a
Google Drive viewer/share link to the direct-download form, pass every other
string through unchanged. -/
def convertGoogleDriveUrl (url : JSStr) : JSStr :=
  match findDriveId url with
  | some fileId => driveDownload ++ fileId
  | none => url

/-! ### Upload validation (multer configuration, server.js lines 42-58) -/

/-- Everything after the last slash; helper for the `path.extname` model. -/
def lastComponent (p : JSStr) : JSStr :=
  p.foldl (fun acc c => if c = '/' then [] else acc ++ [c]) []

/-- Model of Node's `path.extname`: the suffix of the basename starting at its
last dot, provided that dot is not the leading character.  Basenames made of
dots only ("." / "..") are normalized to having no extension; this model and
Node agree on every name whose extension could compare equal to ".pdf". -/
def extnameJs (p : JSStr) : JSStr :=
  let b := lastComponent p
  if b.all (fun c => c = '.') then []
  else
    let t := b.reverse.takeWhile (fun c => c ≠ '.')
    if t.length + 2 ≤ b.length then '.' :: t.reverse else []

/-- ASCII lower-casing, the fragment of `toLowerCase()` relevant to the
comparison with ".pdf". -/
def lowerAscii (s : JSStr) : JSStr := s.map Char.toLower

/-- The multer `fileSize` limit: 10 * 1024 * 1024 bytes. -/
def maxFileSize : Nat := 10 * 1024 * 1024

/-- An uploaded file as seen by multer and the handler. -/
structure IncomingFile where
  mimetype : JSStr
  originalname : JSStr
  size : Nat

def appPdfMime : JSStr := "application/pdf".data

def dotPdf : JSStr := ".pdf".data

/-- The multer `fileFilter` (server.js lines 47-57): accept when the content
type is application/pdf or the lower-cased filename extension is ".pdf". -/
def fileFilterOk (f : IncomingFile) : Bool :=
  decide (f.mimetype = appPdfMime) || decide (lowerAscii (extnameJs f.originalname) = dotPdf)

/-! ### Parser output and its normalization -/

/-- Output of the external pdf-parse collaborator.  `info` and `version` are
optional because the parser may omit them; `text` and `numpages` are always
present on a successful parse. -/
structure PdfData where
  text : JSStr
  numpages : Int
  info : Option (List (JSStr × JSStr)) := none
  version : Option JSStr := none

/-- Result of `await pdfParse(buffer)`: either parsed data or a thrown
JavaScript error carrying a message (this also covers a throwing
`fs.readFileSync`). -/
inductive ParseOutcome where
  | ok (d : PdfData)
  | jsError (msg : JSStr)

/-- Result of `await fetch(url)`: an HTTP response with a status code and
status text, or a network/transport error carrying a message. -/
inductive FetchOutcome where
  | httpResp (status : Nat) (statusText : JSStr)
  | netError (msg : JSStr)

/-- JavaScript truthiness of an optional string: absent and empty strings are
falsy, every other string is truthy. -/
def jsTruthy : Option JSStr → Bool
  | none => false
  | some s => decide (s ≠ [])

/-- The idiom `x || "Unknown"`: an absent or empty (falsy) string becomes the
literal "Unknown". -/
def jsOrUnknown : Option JSStr → JSStr
  | none => "Unknown".data
  | some s => if s = [] then "Unknown".data else s

/-! ### Responses -/

/-- A JSON response body together with its HTTP status.  Every field the
server ever writes is optional, so a response not containing a field is
distinguishable from one containing it. -/
structure Response where
  status : Nat := 200
  success : Option Bool := none
  error : Option JSStr := none
  message : Option JSStr := none
  filename : Option JSStr := none
  fileSize : Option Nat := none
  url : Option JSStr := none
  text : Option JSStr := none
  pages : Option Int := none
  info : Option (List (JSStr × JSStr)) := none
  version : Option JSStr := none
  extractedAt : Option JSStr := none
  textLength : Option Nat := none
  wordCount : Option Nat := none
  data : Option JSStr := none
  signature : Option JSStr := none
  algorithm : Option JSStr := none
  generatedAt : Option JSStr := none
  dataLength : Option Nat := none

/-- 400 response of the missing-file branch (server.js lines 97-102).  Note
that it carries no `success` field. -/
def respMissingFile : Response :=
  { status := 400
    error := some "No PDF file uploaded".data
    message := some "Please upload a PDF file using the \"pdf\" field".data }

/-- 400 response of the error middleware for a rejected file type
(server.js lines 284-289). -/
def respInvalidType : Response :=
  { status := 400
    error := some "Invalid file type".data
    message := some "Only PDF files are allowed".data }

/-- 400 response of the error middleware for `LIMIT_FILE_SIZE`
(server.js lines 275-281). -/
def respTooLarge : Response :=
  { status := 400
    error := some "File too large".data
    message := some "PDF file size must be less than 10MB".data }

/-- The catch-branch 500 responses: category string, `error.message`, and
`success: false`. -/
def respCatch500 (cat m : JSStr) : Response :=
  { status := 500, error := some cat, message := some m, success := some false }

def errUploadFail : JSStr := "Failed to extract text from PDF".data

def errUrlFail : JSStr := "Failed to extract text from PDF URL".data

/-- The success payload of the upload handler (server.js lines 112-126). -/
def mkUploadSuccess (f : IncomingFile) (d : PdfData) (now : JSStr) : Response :=
  { status := 200
    success := some true
    filename := some f.originalname
    fileSize := some f.size
    text := some d.text
    pages := some d.numpages
    info := some (d.info.getD [])
    version := some (jsOrUnknown d.version)
    extractedAt := some now
    textLength := some d.text.length
    wordCount := some (jsWordCount d.text) }

/-- The success payload of the URL handler (server.js lines 193-207): carries
the original pre-rewrite `url` and `filename || "Unknown"`, and no
`fileSize`. -/
def mkUrlSuccess (urlOrig : JSStr) (filename : Option JSStr) (d : PdfData) (now : JSStr) :
    Response :=
  { status := 200
    success := some true
    filename := some (jsOrUnknown filename)
    url := some urlOrig
    text := some d.text
    pages := some d.numpages
    info := some (d.info.getD [])
    version := some (jsOrUnknown d.version)
    extractedAt := some now
    textLength := some d.text.length
    wordCount := some (jsWordCount d.text) }

/-! ### The upload pipeline -/

/-- Model of `cleanupFile` (server.js lines 61-69): `fs.existsSync` then
`fs.unlinkSync` inside try/catch.  `unlinkFails` models a throwing unlink;
the error is swallowed, so the function only transforms the scratch
directory and never affects the response. -/
def cleanupFile (unlinkFails : Bool) (filePath : JSStr) (scratch : List JSStr) : List JSStr :=
  if filePath ∈ scratch then
    if unlinkFails then scratch else scratch.erase filePath
  else scratch

/-- Observable outcome of one request to POST /extract-text: the response,
the scratch directory contents afterwards, and whether the extraction stage
(read + parse) ran. -/
structure UploadTrace where
  resp : Response
  scratch : List JSStr
  parseRan : Bool

/-- One request to POST /extract-text (multer stage plus handler,
server.js lines 42-58, 95-146 and the error middleware lines 274-296).
A missing file reaches the handler's `!req.file` branch; a file rejected by
the `fileFilter` is never written to disk and the error middleware answers;
a file exceeding the size limit triggers `LIMIT_FILE_SIZE` (multer removes
the partial file itself, per its contract) and the middleware answers; an
accepted file is staged under `filePath`, then read and parsed: both on the
success path and in the catch branch `cleanupFile` runs before the response
is produced. -/
def extractTextPipeline (reqFile : Option IncomingFile) (filePath : JSStr)
    (parse : ParseOutcome) (unlinkFails : Bool) (scratch0 : List JSStr) (now : JSStr) :
    UploadTrace :=
  match reqFile with
  | none => { resp := respMissingFile, scratch := scratch0, parseRan := false }
  | some f =>
    if fileFilterOk f then
      if f.size ≤ maxFileSize then
        match parse with
        | ParseOutcome.ok d =>
          { resp := mkUploadSuccess f d now
            scratch := cleanupFile unlinkFails filePath (filePath :: scratch0)
            parseRan := true }
        | ParseOutcome.jsError m =>
          { resp := respCatch500 errUploadFail m
            scratch := cleanupFile unlinkFails filePath (filePath :: scratch0)
            parseRan := true }
      else { resp := respTooLarge, scratch := scratch0, parseRan := false }
    else { resp := respInvalidType, scratch := scratch0, parseRan := false }

/-! ### The URL pipeline -/

/-- Observable outcome of one request to POST /extract-text-url: the response
and the URL actually fetched (`none` when no fetch occurred). -/
structure UrlTrace where
  resp : Response
  fetchedUrl : Option JSStr

/-- 400 response of the missing-url branch (server.js lines 167-172); again
no `success` field. -/
def respMissingUrl : Response :=
  { status := 400
    error := some "No PDF URL provided".data
    message := some "Please provide a \"url\" field with the PDF URL".data }

/-- The message built by `throw new Error` for a non-ok fetch
(server.js line 184). -/
def fetchFailMsg (statusText : JSStr) : JSStr := "Failed to fetch PDF: ".data ++ statusText

/-- One request to POST /extract-text-url (server.js lines 163-219): check
`url` for truthiness, rewrite through `convertGoogleDriveUrl`, fetch, check
`response.ok` (status 200-299), parse, assemble; every thrown error lands in
the catch branch producing a 500 with the error's message. -/
def extractTextUrlHandler (urlField filenameField : Option JSStr)
    (fetch : FetchOutcome) (parse : ParseOutcome) (now : JSStr) : UrlTrace :=
  if jsTruthy urlField then
    let url := urlField.getD []
    let processedUrl := convertGoogleDriveUrl url
    match fetch with
    | FetchOutcome.netError m =>
      { resp := respCatch500 errUrlFail m, fetchedUrl := some processedUrl }
    | FetchOutcome.httpResp st stext =>
      if 200 ≤ st ∧ st ≤ 299 then
        match parse with
        | ParseOutcome.ok d =>
          { resp := mkUrlSuccess url filenameField d now, fetchedUrl := some processedUrl }
        | ParseOutcome.jsError m =>
          { resp := respCatch500 errUrlFail m, fetchedUrl := some processedUrl }
      else
        { resp := respCatch500 errUrlFail (fetchFailMsg stext), fetchedUrl := some processedUrl }
  else { resp := respMissingUrl, fetchedUrl := none }

/-! ### The HMAC endpoint -/

/-- Body of a POST /generate-hmac request. -/
structure HmacBody where
  data : Option JSStr := none
  secret : Option JSStr := none

/-- One request to POST /generate-hmac (server.js lines 222-271).  The crypto
primitive is an external collaborator, passed in as the pure function
`hmacHex`; the server state visible to later requests (the scratch
directory, the only cross-request mutable state) is threaded through and
returned. -/
def generateHmacHandler (hmacHex : JSStr → JSStr → JSStr) (body : HmacBody)
    (now : JSStr) (st : List JSStr) : Response × List JSStr :=
  if jsTruthy body.data then
    if jsTruthy body.secret then
      let d := body.data.getD []
      let s := body.secret.getD []
      ({ status := 200
         success := some true
         data := some d
         signature := some (hmacHex d s)
         algorithm := some "HMAC-SHA512".data
         generatedAt := some now
         dataLength := some d.length }, st)
    else
      ({ status := 400
         error := some "Missing secret parameter".data
         message := some "Please provide a \"secret\" field with the signing key".data
         success := some false }, st)
  else
    ({ status := 400
       error := some "Missing data parameter".data
       message := some "Please provide a \"data\" field with the data to sign".data
       success := some false }, st)

end PdfServer

namespace PdfServer

/-! ## Lemmas about the tokenizer -/

theorem splitWsAux_filter_eq (l : List Char) :
    (∀ cur, (splitWsAux l false cur).filter posTok
        = ((cur.reverse ++ (charSplitP l).1) :: (charSplitP l).2).filter posTok)
    ∧ (∀ cur, (splitWsAux l true cur).filter posTok
        = ((charSplitP l).1 :: (charSplitP l).2).filter posTok) := by
  induction l with
  | nil =>
      refine ⟨fun cur => ?_, fun cur => ?_⟩
      · simp [splitWsAux, charSplitP]
      · simp [splitWsAux, charSplitP, posTok, List.filter]
  | cons c r ih =>
      refine ⟨fun cur => ?_, fun cur => ?_⟩
      · by_cases hc : isJsWs c
        · simp only [splitWsAux, hc, if_pos, charSplitP, List.filter_cons, ih.2 []]
          simp [List.filter_cons]
        · simp only [splitWsAux, hc, if_neg, Bool.false_eq_true, not_false_iff, charSplitP,
            ih.1 (c :: cur)]
          simp [List.filter_cons, List.append_assoc]
      · by_cases hc : isJsWs c
        · simp only [splitWsAux, hc, if_pos, charSplitP, ih.2 cur]
          simp [List.filter_cons, posTok]
        · simp only [splitWsAux, hc, if_neg, Bool.false_eq_true, not_false_iff, charSplitP,
            ih.1 [c]]
          simp [List.filter_cons]

/-- The word count computed by the handlers equals the number of non-empty
whitespace-delimited tokens of the text, as the spec defines them. -/
theorem jsWordCount_eq_specTokens (t : JSStr) : jsWordCount t = (specTokens t).length := by
  have h := (splitWsAux_filter_eq t).1 []
  simp only [jsWordCount, splitWsRuns, specTokens, charSplit, h, List.nil_append,
    List.reverse_nil]

/-- A whitespace-only text has no non-empty tokens. -/
theorem specTokens_eq_nil_of_ws (t : JSStr) (h : t.all isJsWs = true) : specTokens t = [] := by
  induction t with
  | nil => simp [specTokens, charSplit, charSplitP, posTok]
  | cons c r ih =>
      simp only [List.all_cons, Bool.and_eq_true] at h
      have hr := ih h.2
      simp only [specTokens, charSplit, charSplitP, h.1, if_pos] at *
      simpa [List.filter_cons, posTok] using hr

/-- The handlers report word count 0 for an empty or whitespace-only text. -/
theorem jsWordCount_eq_zero_of_ws (t : JSStr) (h : t.all isJsWs = true) : jsWordCount t = 0 := by
  rw [jsWordCount_eq_specTokens, specTokens_eq_nil_of_ws t h, List.length_nil]

end PdfServer

namespace PdfServer

/-! ## Lemmas about the Drive URL resolver -/

theorem dropLit_append (p r : List Char) : dropLit p (p ++ r) = some r := by
  induction p with
  | nil => rfl
  | cons c ps ih => simp [dropLit, ih]

theorem dropLit_eq_some {p l r : List Char} (h : dropLit p l = some r) : l = p ++ r := by
  induction p generalizing l with
  | nil => simpa [dropLit] using h
  | cons c ps ih =>
      cases l with
      | nil => simp [dropLit] at h
      | cons a as =>
          by_cases hac : a = c
          · subst hac
            simp only [dropLit, if_pos rfl] at h
            simpa using ih h
          · simp [dropLit, hac] at h

theorem matchDriveAt_sound {l : List Char} {fid : JSStr} (h : matchDriveAt l = some fid) :
    fid ≠ [] ∧ fid.all isDriveIdChar = true ∧ ∃ post, l = drivePat ++ fid ++ post := by
  unfold matchDriveAt at h
  cases hd : dropLit drivePat l with
  | none => rw [hd] at h; exact absurd h (by simp)
  | some rem =>
      rw [hd] at h
      simp only at h
      by_cases hfid : rem.takeWhile isDriveIdChar = []
      · rw [if_pos hfid] at h; exact absurd h (by simp)
      · rw [if_neg hfid] at h
        have hfe : fid = rem.takeWhile isDriveIdChar := by
          cases h; rfl
        subst hfe
        refine ⟨hfid, ?_, rem.dropWhile isDriveIdChar, ?_⟩
        · simp only [List.all_eq_true]
          intro x hx
          exact List.mem_takeWhile_imp hx
        · rw [dropLit_eq_some hd, List.append_assoc, List.takeWhile_append_dropWhile]

theorem matchDriveAt_isSome (fid post : JSStr) (h1 : fid ≠ [])
    (h2 : fid.all isDriveIdChar = true) :
    (matchDriveAt (drivePat ++ fid ++ post)).isSome = true := by
  unfold matchDriveAt
  rw [List.append_assoc, dropLit_append]
  simp only
  cases fid with
  | nil => exact absurd rfl h1
  | cons a rest =>
      simp only [List.all_cons, Bool.and_eq_true] at h2
      rw [List.cons_append, List.takeWhile_cons_of_pos h2.1]
      simp

theorem findDriveId_sound {l : List Char} {fid : JSStr} (h : findDriveId l = some fid) :
    fid ≠ [] ∧ fid.all isDriveIdChar = true ∧ ∃ pre post, l = pre ++ drivePat ++ fid ++ post := by
  induction l with
  | nil => simp [findDriveId] at h
  | cons c r ih =>
      unfold findDriveId at h
      cases hm : matchDriveAt (c :: r) with
      | some g =>
          rw [hm] at h
          simp only [Option.some.injEq] at h
          subst h
          obtain ⟨h1, h2, post, hpost⟩ := matchDriveAt_sound hm
          exact ⟨h1, h2, [], post, by simpa using hpost⟩
      | none =>
          rw [hm] at h
          obtain ⟨h1, h2, pre, post, hdec⟩ := ih h
          exact ⟨h1, h2, c :: pre, post, by simp [hdec]⟩

theorem findDriveId_complete (pre fid post : JSStr) (h1 : fid ≠ [])
    (h2 : fid.all isDriveIdChar = true) :
    (findDriveId (pre ++ drivePat ++ fid ++ post)).isSome = true := by
  induction pre with
  | nil =>
      have hm := matchDriveAt_isSome fid post h1 h2
      cases hma : matchDriveAt (drivePat ++ fid ++ post) with
      | none => rw [hma] at hm; simp at hm
      | some g =>
          have hcons : drivePat ++ fid ++ post
              = 'h' :: ("ttps://drive.google.com/file/d/".data ++ fid ++ post) := by
            simp [drivePat]
          rw [List.nil_append, hcons]
          unfold findDriveId
          rw [← hcons, hma]
          simp
  | cons c pr ih =>
      simp only [List.cons_append]
      unfold findDriveId
      cases hma : matchDriveAt (c :: (pr ++ drivePat ++ fid ++ post)) with
      | some g => simp
      | none => simpa using ih

end PdfServer

namespace PdfServer

theorem cleanupFile_fresh (filePath : JSStr) (scratch0 : List JSStr) :
    cleanupFile false filePath (filePath :: scratch0) = scratch0 := by
  simp [cleanupFile]

/-- C1: for every request to POST /extract-text, the response never depends on
whether the removal of the staged file succeeds (a removal failure is
swallowed and the response is still sent), and after the request, under a
normally-behaving unlink, the scratch directory no longer contains the file
name generated for that request — on the success path and on every failure
path alike. -/
theorem upload_cleanup_invariant (reqFile : Option IncomingFile) (filePath : JSStr)
    (parse : ParseOutcome) (scratch0 : List JSStr) (now : JSStr)
    (hfresh : filePath ∉ scratch0) :
    (extractTextPipeline reqFile filePath parse true scratch0 now).resp
      = (extractTextPipeline reqFile filePath parse false scratch0 now).resp
    ∧ filePath ∉ (extractTextPipeline reqFile filePath parse false scratch0 now).scratch := by
  cases reqFile with
  | none => exact ⟨rfl, by simpa [extractTextPipeline] using hfresh⟩
  | some f =>
      by_cases hff : fileFilterOk f
      · by_cases hsz : f.size ≤ maxFileSize
        · cases parse with
          | ok d =>
              refine ⟨by simp [extractTextPipeline, hff, hsz], ?_⟩
              simpa [extractTextPipeline, hff, hsz, cleanupFile_fresh] using hfresh
          | jsError m =>
              refine ⟨by simp [extractTextPipeline, hff, hsz], ?_⟩
              simpa [extractTextPipeline, hff, hsz, cleanupFile_fresh] using hfresh
        · exact ⟨by simp [extractTextPipeline, hff, hsz],
            by simpa [extractTextPipeline, hff, hsz] using hfresh⟩
      · exact ⟨by simp [extractTextPipeline, hff],
          by simpa [extractTextPipeline, hff] using hfresh⟩

theorem upload_cleanup_invariant_witness :
    ("uploads/pdf-1.pdf".data ∉ ([] : List JSStr))
    ∧ ((extractTextPipeline (some ⟨appPdfMime, "r.pdf".data, 5⟩) "uploads/pdf-1.pdf".data
          (ParseOutcome.ok ⟨"hello".data, 1, none, none⟩) true [] "t".data).resp
        = (extractTextPipeline (some ⟨appPdfMime, "r.pdf".data, 5⟩) "uploads/pdf-1.pdf".data
          (ParseOutcome.ok ⟨"hello".data, 1, none, none⟩) false [] "t".data).resp
      ∧ "uploads/pdf-1.pdf".data ∉ (extractTextPipeline (some ⟨appPdfMime, "r.pdf".data, 5⟩)
          "uploads/pdf-1.pdf".data (ParseOutcome.ok ⟨"hello".data, 1, none, none⟩)
          false [] "t".data).scratch) :=
  ⟨by decide, upload_cleanup_invariant _ _ _ _ _ (by decide)⟩

/-- C2: in every success response of both extraction modes, `textLength` is
the character count of the extracted text and `wordCount` is the number of
non-empty whitespace-delimited tokens of the text; in particular it is 0 for
an empty or whitespace-only text. -/
theorem extraction_counts_correct (f : IncomingFile) (filePath : JSStr) (d : PdfData)
    (unlinkFails : Bool) (scratch0 : List JSStr) (now : JSStr)
    (urlField filenameField : Option JSStr) (st : Nat) (stext : JSStr)
    (hff : fileFilterOk f = true) (hsz : f.size ≤ maxFileSize)
    (hurl : jsTruthy urlField = true) (hok : 200 ≤ st ∧ st ≤ 299) :
    ((extractTextPipeline (some f) filePath (ParseOutcome.ok d) unlinkFails scratch0 now).resp.textLength
        = some d.text.length
    ∧ (extractTextPipeline (some f) filePath (ParseOutcome.ok d) unlinkFails scratch0 now).resp.wordCount
        = some (specTokens d.text).length)
    ∧ ((extractTextUrlHandler urlField filenameField (FetchOutcome.httpResp st stext)
          (ParseOutcome.ok d) now).resp.textLength = some d.text.length
    ∧ (extractTextUrlHandler urlField filenameField (FetchOutcome.httpResp st stext)
          (ParseOutcome.ok d) now).resp.wordCount = some (specTokens d.text).length)
    ∧ (d.text.all isJsWs = true → jsWordCount d.text = 0) := by
  refine ⟨⟨?_, ?_⟩, ⟨?_, ?_⟩, jsWordCount_eq_zero_of_ws d.text⟩
  · simp [extractTextPipeline, hff, hsz, mkUploadSuccess]
  · simp [extractTextPipeline, hff, hsz, mkUploadSuccess, jsWordCount_eq_specTokens]
  · simp [extractTextUrlHandler, hurl, hok, mkUrlSuccess]
  · simp [extractTextUrlHandler, hurl, hok, mkUrlSuccess, jsWordCount_eq_specTokens]

theorem extraction_counts_correct_witness :
    (fileFilterOk ⟨appPdfMime, "r.pdf".data, 5⟩ = true ∧ 5 ≤ maxFileSize
      ∧ jsTruthy (some "https://x.test/a.pdf".data) = true ∧ (200 ≤ 200 ∧ 200 ≤ 299))
    ∧ (((extractTextPipeline (some ⟨appPdfMime, "r.pdf".data, 5⟩) "p".data
          (ParseOutcome.ok ⟨" one  two ".data, 1, none, none⟩) false [] "t".data).resp.textLength
            = some (" one  two ".data).length
        ∧ (extractTextPipeline (some ⟨appPdfMime, "r.pdf".data, 5⟩) "p".data
          (ParseOutcome.ok ⟨" one  two ".data, 1, none, none⟩) false [] "t".data).resp.wordCount
            = some (specTokens " one  two ".data).length)
      ∧ ((extractTextUrlHandler (some "https://x.test/a.pdf".data) none
            (FetchOutcome.httpResp 200 "OK".data)
            (ParseOutcome.ok ⟨" one  two ".data, 1, none, none⟩) "t".data).resp.textLength
              = some (" one  two ".data).length
        ∧ (extractTextUrlHandler (some "https://x.test/a.pdf".data) none
            (FetchOutcome.httpResp 200 "OK".data)
            (ParseOutcome.ok ⟨" one  two ".data, 1, none, none⟩) "t".data).resp.wordCount
              = some (specTokens " one  two ".data).length)
      ∧ ((" one  two ".data).all isJsWs = true → jsWordCount " one  two ".data = 0)) :=
  ⟨⟨by decide, by decide, by decide, by decide⟩,
    extraction_counts_correct _ _ _ _ _ _ _ _ _ _ (by decide) (by decide) (by decide)
      ⟨by decide, by decide⟩⟩

/-- C3: the URL resolver is a pure total function; a string containing the
Google Drive viewer/share pattern (the literal followed by at least one
identifier character over letters, digits, underscore, hyphen) is rewritten
to the direct-download form with the extracted identifier, and every other
string is returned unchanged. -/
theorem drive_url_resolver_correct (u : JSStr) :
    ((findDriveId u).isSome = true ↔
        ∃ pre fid post, fid ≠ [] ∧ fid.all isDriveIdChar = true
          ∧ u = pre ++ drivePat ++ fid ++ post)
    ∧ (∀ fid, findDriveId u = some fid →
        convertGoogleDriveUrl u = driveDownload ++ fid
          ∧ fid ≠ [] ∧ fid.all isDriveIdChar = true
          ∧ ∃ pre post, u = pre ++ drivePat ++ fid ++ post)
    ∧ (findDriveId u = none → convertGoogleDriveUrl u = u) := by
  refine ⟨⟨?_, ?_⟩, ?_, ?_⟩
  · intro h
    cases hf : findDriveId u with
    | none => rw [hf] at h; simp at h
    | some fid =>
        obtain ⟨h1, h2, pre, post, hd⟩ := findDriveId_sound hf
        exact ⟨pre, fid, post, h1, h2, hd⟩
  · rintro ⟨pre, fid, post, h1, h2, hd⟩
    rw [hd]
    exact findDriveId_complete pre fid post h1 h2
  · intro fid hf
    obtain ⟨h1, h2, pre, post, hd⟩ := findDriveId_sound hf
    exact ⟨by simp [convertGoogleDriveUrl, hf], h1, h2, pre, post, hd⟩
  · intro hf
    simp [convertGoogleDriveUrl, hf]

theorem drive_url_resolver_correct_witness :
    convertGoogleDriveUrl ("https://drive.google.com/file/d/abc_12-3/view".data)
        = driveDownload ++ "abc_12-3".data
    ∧ convertGoogleDriveUrl ("https://example.com/doc.pdf".data)
        = "https://example.com/doc.pdf".data :=
  ⟨((drive_url_resolver_correct _).2.1 _ (by decide)).1,
    (drive_url_resolver_correct _).2.2 (by decide)⟩

end PdfServer

namespace PdfServer

/-- C4: upload-mode validation failures map to HTTP 400 with their stated
messages — missing file, rejected type (content type not application/pdf and
lower-cased extension not ".pdf"), size over 10 MiB — and a file passing all
three checks reaches the extraction stage. -/
theorem upload_validation_mapping (reqFile : Option IncomingFile) (filePath : JSStr)
    (parse : ParseOutcome) (unlinkFails : Bool) (scratch0 : List JSStr) (now : JSStr) :
    (reqFile = none →
        (extractTextPipeline reqFile filePath parse unlinkFails scratch0 now).resp.status = 400
        ∧ (extractTextPipeline reqFile filePath parse unlinkFails scratch0 now).resp.error
            = some "No PDF file uploaded".data
        ∧ (extractTextPipeline reqFile filePath parse unlinkFails scratch0 now).parseRan = false)
    ∧ (∀ f, reqFile = some f → f.mimetype ≠ appPdfMime →
        lowerAscii (extnameJs f.originalname) ≠ dotPdf →
        (extractTextPipeline reqFile filePath parse unlinkFails scratch0 now).resp.status = 400
        ∧ (extractTextPipeline reqFile filePath parse unlinkFails scratch0 now).resp.message
            = some "Only PDF files are allowed".data
        ∧ (extractTextPipeline reqFile filePath parse unlinkFails scratch0 now).parseRan = false)
    ∧ (∀ f, reqFile = some f → fileFilterOk f = true → maxFileSize < f.size →
        (extractTextPipeline reqFile filePath parse unlinkFails scratch0 now).resp.status = 400
        ∧ (extractTextPipeline reqFile filePath parse unlinkFails scratch0 now).resp.message
            = some "PDF file size must be less than 10MB".data
        ∧ (extractTextPipeline reqFile filePath parse unlinkFails scratch0 now).parseRan = false)
    ∧ (∀ f, reqFile = some f → fileFilterOk f = true → f.size ≤ maxFileSize →
        (extractTextPipeline reqFile filePath parse unlinkFails scratch0 now).parseRan = true) := by
  refine ⟨?_, ?_, ?_, ?_⟩
  · rintro rfl
    exact ⟨rfl, rfl, rfl⟩
  · rintro f rfl hm hx
    have hff : fileFilterOk f = false := by
      simp [fileFilterOk, hm, hx]
    refine ⟨?_, ?_, ?_⟩ <;> simp [extractTextPipeline, hff, respInvalidType]
  · rintro f rfl hff hsz
    have hsz2 : ¬ f.size ≤ maxFileSize := by omega
    refine ⟨?_, ?_, ?_⟩ <;> simp [extractTextPipeline, hff, hsz2, respTooLarge]
  · rintro f rfl hff hsz
    cases parse with
    | ok d => simp [extractTextPipeline, hff, hsz]
    | jsError m => simp [extractTextPipeline, hff, hsz]

theorem upload_validation_mapping_witness :
    ((extractTextPipeline none "p".data (ParseOutcome.jsError "e".data) false [] "t".data).resp.status
        = 400
      ∧ (extractTextPipeline none "p".data (ParseOutcome.jsError "e".data) false [] "t".data).resp.error
        = some "No PDF file uploaded".data
      ∧ (extractTextPipeline none "p".data (ParseOutcome.jsError "e".data) false [] "t".data).parseRan
        = false)
    ∧ ((extractTextPipeline (some ⟨"text/plain".data, "a.txt".data, 5⟩) "p".data
          (ParseOutcome.jsError "e".data) false [] "t".data).resp.status = 400
      ∧ (extractTextPipeline (some ⟨"text/plain".data, "a.txt".data, 5⟩) "p".data
          (ParseOutcome.jsError "e".data) false [] "t".data).resp.message
        = some "Only PDF files are allowed".data
      ∧ (extractTextPipeline (some ⟨"text/plain".data, "a.txt".data, 5⟩) "p".data
          (ParseOutcome.jsError "e".data) false [] "t".data).parseRan = false)
    ∧ ((extractTextPipeline (some ⟨appPdfMime, "a.pdf".data, 10485761⟩) "p".data
          (ParseOutcome.jsError "e".data) false [] "t".data).resp.status = 400
      ∧ (extractTextPipeline (some ⟨appPdfMime, "a.pdf".data, 10485761⟩) "p".data
          (ParseOutcome.jsError "e".data) false [] "t".data).resp.message
        = some "PDF file size must be less than 10MB".data
      ∧ (extractTextPipeline (some ⟨appPdfMime, "a.pdf".data, 10485761⟩) "p".data
          (ParseOutcome.jsError "e".data) false [] "t".data).parseRan = false)
    ∧ (extractTextPipeline (some ⟨appPdfMime, "a.pdf".data, 5⟩) "p".data
          (ParseOutcome.jsError "e".data) false [] "t".data).parseRan = true :=
  ⟨(upload_validation_mapping none "p".data (ParseOutcome.jsError "e".data) false [] "t".data).1
      rfl,
    (upload_validation_mapping _ "p".data (ParseOutcome.jsError "e".data) false [] "t".data).2.1
      _ rfl (by decide) (by decide),
    (upload_validation_mapping _ "p".data (ParseOutcome.jsError "e".data) false [] "t".data).2.2.1
      _ rfl (by decide) (by decide),
    (upload_validation_mapping _ "p".data (ParseOutcome.jsError "e".data) false [] "t".data).2.2.2
      _ rfl (by decide) (by decide)⟩

/-- C5: in URL mode, a missing url field yields HTTP 400 with the message
directing to provide a "url" field and no fetch occurs; a non-2xx fetch
response yields HTTP 500 whose message contains the upstream status text; a
network/transport error yields HTTP 500 whose message contains the underlying
error text. -/
theorem url_mode_error_mapping (urlField filenameField : Option JSStr)
    (fetch : FetchOutcome) (parse : ParseOutcome) (now : JSStr) :
    (urlField = none →
        (extractTextUrlHandler urlField filenameField fetch parse now).resp.status = 400
        ∧ (extractTextUrlHandler urlField filenameField fetch parse now).resp.error
            = some "No PDF URL provided".data
        ∧ (extractTextUrlHandler urlField filenameField fetch parse now).resp.message
            = some "Please provide a \"url\" field with the PDF URL".data
        ∧ (extractTextUrlHandler urlField filenameField fetch parse now).fetchedUrl = none)
    ∧ (∀ st stext, jsTruthy urlField = true → fetch = FetchOutcome.httpResp st stext →
        ¬ (200 ≤ st ∧ st ≤ 299) →
        (extractTextUrlHandler urlField filenameField fetch parse now).resp.status = 500
        ∧ ∃ pre post, (extractTextUrlHandler urlField filenameField fetch parse now).resp.message
            = some (pre ++ stext ++ post))
    ∧ (∀ m, jsTruthy urlField = true → fetch = FetchOutcome.netError m →
        (extractTextUrlHandler urlField filenameField fetch parse now).resp.status = 500
        ∧ ∃ pre post, (extractTextUrlHandler urlField filenameField fetch parse now).resp.message
            = some (pre ++ m ++ post)) := by
  refine ⟨?_, ?_, ?_⟩
  · rintro rfl
    exact ⟨rfl, rfl, rfl, rfl⟩
  · rintro st stext hurl rfl hnot
    refine ⟨?_, "Failed to fetch PDF: ".data, [], ?_⟩
    · simp [extractTextUrlHandler, hurl, hnot, respCatch500]
    · simp [extractTextUrlHandler, hurl, hnot, respCatch500, fetchFailMsg]
  · rintro m hurl rfl
    refine ⟨?_, [], [], ?_⟩
    · simp [extractTextUrlHandler, hurl, respCatch500]
    · simp [extractTextUrlHandler, hurl, respCatch500]

theorem url_mode_error_mapping_witness :
    ((extractTextUrlHandler none none (FetchOutcome.netError "x".data)
          (ParseOutcome.jsError "e".data) "t".data).resp.status = 400
      ∧ (extractTextUrlHandler none none (FetchOutcome.netError "x".data)
          (ParseOutcome.jsError "e".data) "t".data).resp.error
        = some "No PDF URL provided".data
      ∧ (extractTextUrlHandler none none (FetchOutcome.netError "x".data)
          (ParseOutcome.jsError "e".data) "t".data).resp.message
        = some "Please provide a \"url\" field with the PDF URL".data
      ∧ (extractTextUrlHandler none none (FetchOutcome.netError "x".data)
          (ParseOutcome.jsError "e".data) "t".data).fetchedUrl = none)
    ∧ ((extractTextUrlHandler (some "https://x.test/a.pdf".data) none
          (FetchOutcome.httpResp 404 "Not Found".data)
          (ParseOutcome.jsError "e".data) "t".data).resp.status = 500
      ∧ ∃ pre post, (extractTextUrlHandler (some "https://x.test/a.pdf".data) none
          (FetchOutcome.httpResp 404 "Not Found".data)
          (ParseOutcome.jsError "e".data) "t".data).resp.message
        = some (pre ++ "Not Found".data ++ post))
    ∧ ((extractTextUrlHandler (some "https://x.test/a.pdf".data) none
          (FetchOutcome.netError "getaddrinfo ENOTFOUND x.test".data)
          (ParseOutcome.jsError "e".data) "t".data).resp.status = 500
      ∧ ∃ pre post, (extractTextUrlHandler (some "https://x.test/a.pdf".data) none
          (FetchOutcome.netError "getaddrinfo ENOTFOUND x.test".data)
          (ParseOutcome.jsError "e".data) "t".data).resp.message
        = some (pre ++ "getaddrinfo ENOTFOUND x.test".data ++ post)) :=
  ⟨(url_mode_error_mapping none none (FetchOutcome.netError "x".data)
      (ParseOutcome.jsError "e".data) "t".data).1 rfl,
    (url_mode_error_mapping (some "https://x.test/a.pdf".data) none
      (FetchOutcome.httpResp 404 "Not Found".data) (ParseOutcome.jsError "e".data) "t".data).2.1
      404 "Not Found".data (by decide) rfl (by decide),
    (url_mode_error_mapping (some "https://x.test/a.pdf".data) none
      (FetchOutcome.netError "getaddrinfo ENOTFOUND x.test".data)
      (ParseOutcome.jsError "e".data) "t".data).2.2
      "getaddrinfo ENOTFOUND x.test".data (by decide) rfl⟩

end PdfServer

namespace PdfServer

/-! ## Response shapes across the error taxonomy -/

theorem upload_resp_cases (reqFile : Option IncomingFile) (filePath : JSStr)
    (parse : ParseOutcome) (unlinkFails : Bool) (scratch0 : List JSStr) (now : JSStr) :
    (extractTextPipeline reqFile filePath parse unlinkFails scratch0 now).resp = respMissingFile
    ∨ (extractTextPipeline reqFile filePath parse unlinkFails scratch0 now).resp = respInvalidType
    ∨ (extractTextPipeline reqFile filePath parse unlinkFails scratch0 now).resp = respTooLarge
    ∨ (∃ f d, (extractTextPipeline reqFile filePath parse unlinkFails scratch0 now).resp
        = mkUploadSuccess f d now)
    ∨ (∃ m, (extractTextPipeline reqFile filePath parse unlinkFails scratch0 now).resp
        = respCatch500 errUploadFail m) := by
  cases reqFile with
  | none => left; rfl
  | some f =>
      by_cases hff : fileFilterOk f
      · by_cases hsz : f.size ≤ maxFileSize
        · cases parse with
          | ok d =>
              right; right; right; left
              exact ⟨f, d, by simp [extractTextPipeline, hff, hsz]⟩
          | jsError m =>
              right; right; right; right
              exact ⟨m, by simp [extractTextPipeline, hff, hsz]⟩
        · right; right; left
          simp [extractTextPipeline, hff, hsz]
      · right; left
        simp [extractTextPipeline, hff]

theorem url_resp_cases (urlField filenameField : Option JSStr) (fetch : FetchOutcome)
    (parse : ParseOutcome) (now : JSStr) :
    (extractTextUrlHandler urlField filenameField fetch parse now).resp = respMissingUrl
    ∨ (∃ m, (extractTextUrlHandler urlField filenameField fetch parse now).resp
        = respCatch500 errUrlFail m)
    ∨ (∃ d, (extractTextUrlHandler urlField filenameField fetch parse now).resp
        = mkUrlSuccess (urlField.getD []) filenameField d now) := by
  by_cases hurl : jsTruthy urlField
  · cases fetch with
    | netError m =>
        right; left
        exact ⟨m, by simp [extractTextUrlHandler, hurl]⟩
    | httpResp st stext =>
        by_cases hok : 200 ≤ st ∧ st ≤ 299
        · cases parse with
          | ok d =>
              right; right
              exact ⟨d, by simp [extractTextUrlHandler, hurl, hok]⟩
          | jsError m =>
              right; left
              exact ⟨m, by simp [extractTextUrlHandler, hurl, hok]⟩
        · right; left
          exact ⟨fetchFailMsg stext, by simp [extractTextUrlHandler, hurl, hok]⟩
  · left
    simp [extractTextUrlHandler, hurl]

theorem upload_resp_shape (reqFile : Option IncomingFile) (filePath : JSStr)
    (parse : ParseOutcome) (unlinkFails : Bool) (scratch0 : List JSStr) (now : JSStr) :
    ((extractTextPipeline reqFile filePath parse unlinkFails scratch0 now).resp.status ≠ 200 →
        (extractTextPipeline reqFile filePath parse unlinkFails scratch0 now).resp.error ≠ none
        ∧ (extractTextPipeline reqFile filePath parse unlinkFails scratch0 now).resp.message ≠ none)
    ∧ ((extractTextPipeline reqFile filePath parse unlinkFails scratch0 now).resp.status = 400 →
        (extractTextPipeline reqFile filePath parse unlinkFails scratch0 now).resp.success = none)
    ∧ ((extractTextPipeline reqFile filePath parse unlinkFails scratch0 now).resp.status = 500 →
        (extractTextPipeline reqFile filePath parse unlinkFails scratch0 now).resp.success
          = some false) := by
  rcases upload_resp_cases reqFile filePath parse unlinkFails scratch0 now with
    h | h | h | ⟨f, d, h⟩ | ⟨m, h⟩ <;> rw [h] <;>
  simp [respMissingFile, respInvalidType, respTooLarge, mkUploadSuccess, respCatch500]

theorem url_resp_shape (urlField filenameField : Option JSStr) (fetch : FetchOutcome)
    (parse : ParseOutcome) (now : JSStr) :
    ((extractTextUrlHandler urlField filenameField fetch parse now).resp.status ≠ 200 →
        (extractTextUrlHandler urlField filenameField fetch parse now).resp.error ≠ none
        ∧ (extractTextUrlHandler urlField filenameField fetch parse now).resp.message ≠ none)
    ∧ ((extractTextUrlHandler urlField filenameField fetch parse now).resp.status = 400 →
        (extractTextUrlHandler urlField filenameField fetch parse now).resp.success = none)
    ∧ ((extractTextUrlHandler urlField filenameField fetch parse now).resp.status = 500 →
        (extractTextUrlHandler urlField filenameField fetch parse now).resp.success
          = some false) := by
  rcases url_resp_cases urlField filenameField fetch parse now with
    h | ⟨m, h⟩ | ⟨d, h⟩ <;> rw [h] <;>
  simp [respMissingUrl, respCatch500, mkUrlSuccess]

theorem hmac_resp_shape (hmacHex : JSStr → JSStr → JSStr) (body : HmacBody)
    (now : JSStr) (st : List JSStr) :
    (generateHmacHandler hmacHex body now st).1.status ≠ 200 →
      (generateHmacHandler hmacHex body now st).1.error ≠ none
      ∧ (generateHmacHandler hmacHex body now st).1.message ≠ none
      ∧ (generateHmacHandler hmacHex body now st).1.success = some false := by
  by_cases h1 : jsTruthy body.data <;> by_cases h2 : jsTruthy body.secret <;>
    simp [generateHmacHandler, h1, h2]

/-- C6 counterexample: the missing-file validation failure of POST
/extract-text is answered with HTTP 400 but the JSON body carries no
`success` field at all, so not every failure response contains
`success: false`. -/
theorem error_response_missing_success_cex :
    (extractTextPipeline none "p".data (ParseOutcome.jsError "e".data) false [] "t".data).resp.status
        = 400
    ∧ (extractTextPipeline none "p".data (ParseOutcome.jsError "e".data) false [] "t".data).resp.success
        = none := ⟨rfl, rfl⟩

/-- C6 (amended): every failure response of the three endpoints carries a
short error category string and a human-readable message; the catch-path 500
responses and the generate-hmac validation failures additionally carry
`success: false`, while the 400 validation failures of the extraction
endpoints omit the `success` field. -/
theorem error_response_shape_amended (reqFile : Option IncomingFile) (filePath : JSStr)
    (parseA : ParseOutcome) (unlinkFails : Bool) (scratch0 : List JSStr) (nowA : JSStr)
    (urlField filenameField : Option JSStr) (fetch : FetchOutcome) (parseB : ParseOutcome)
    (nowB : JSStr) (hmacHex : JSStr → JSStr → JSStr) (body : HmacBody) (nowC : JSStr)
    (st : List JSStr) :
    (((extractTextPipeline reqFile filePath parseA unlinkFails scratch0 nowA).resp.status ≠ 200 →
        (extractTextPipeline reqFile filePath parseA unlinkFails scratch0 nowA).resp.error ≠ none
        ∧ (extractTextPipeline reqFile filePath parseA unlinkFails scratch0 nowA).resp.message
            ≠ none)
      ∧ ((extractTextPipeline reqFile filePath parseA unlinkFails scratch0 nowA).resp.status = 400 →
          (extractTextPipeline reqFile filePath parseA unlinkFails scratch0 nowA).resp.success
            = none)
      ∧ ((extractTextPipeline reqFile filePath parseA unlinkFails scratch0 nowA).resp.status = 500 →
          (extractTextPipeline reqFile filePath parseA unlinkFails scratch0 nowA).resp.success
            = some false))
    ∧ (((extractTextUrlHandler urlField filenameField fetch parseB nowB).resp.status ≠ 200 →
        (extractTextUrlHandler urlField filenameField fetch parseB nowB).resp.error ≠ none
        ∧ (extractTextUrlHandler urlField filenameField fetch parseB nowB).resp.message ≠ none)
      ∧ ((extractTextUrlHandler urlField filenameField fetch parseB nowB).resp.status = 400 →
          (extractTextUrlHandler urlField filenameField fetch parseB nowB).resp.success = none)
      ∧ ((extractTextUrlHandler urlField filenameField fetch parseB nowB).resp.status = 500 →
          (extractTextUrlHandler urlField filenameField fetch parseB nowB).resp.success
            = some false))
    ∧ ((generateHmacHandler hmacHex body nowC st).1.status ≠ 200 →
        (generateHmacHandler hmacHex body nowC st).1.error ≠ none
        ∧ (generateHmacHandler hmacHex body nowC st).1.message ≠ none
        ∧ (generateHmacHandler hmacHex body nowC st).1.success = some false) :=
  ⟨upload_resp_shape reqFile filePath parseA unlinkFails scratch0 nowA,
    url_resp_shape urlField filenameField fetch parseB nowB,
    hmac_resp_shape hmacHex body nowC st⟩

theorem error_response_shape_amended_witness :
    ((extractTextPipeline none "p".data (ParseOutcome.jsError "e".data) false [] "t".data).resp.error
        ≠ none
      ∧ (extractTextPipeline none "p".data (ParseOutcome.jsError "e".data) false [] "t".data).resp.message
        ≠ none)
    ∧ (extractTextPipeline none "p".data (ParseOutcome.jsError "e".data) false [] "t".data).resp.success
        = none
    ∧ ((generateHmacHandler (fun a b => a ++ b) ⟨some "x".data, none⟩ "t".data []).1.error ≠ none
      ∧ (generateHmacHandler (fun a b => a ++ b) ⟨some "x".data, none⟩ "t".data []).1.message ≠ none
      ∧ (generateHmacHandler (fun a b => a ++ b) ⟨some "x".data, none⟩ "t".data []).1.success
          = some false) :=
  ⟨(error_response_shape_amended none "p".data (ParseOutcome.jsError "e".data) false [] "t".data
      none none (FetchOutcome.netError "x".data) (ParseOutcome.jsError "e".data) "t".data
      (fun a b => a ++ b) ⟨some "x".data, none⟩ "t".data []).1.1 (by decide),
    (error_response_shape_amended none "p".data (ParseOutcome.jsError "e".data) false [] "t".data
      none none (FetchOutcome.netError "x".data) (ParseOutcome.jsError "e".data) "t".data
      (fun a b => a ++ b) ⟨some "x".data, none⟩ "t".data []).1.2.1 (by decide),
    (error_response_shape_amended none "p".data (ParseOutcome.jsError "e".data) false [] "t".data
      none none (FetchOutcome.netError "x".data) (ParseOutcome.jsError "e".data) "t".data
      (fun a b => a ++ b) ⟨some "x".data, none⟩ "t".data []).2.2 (by decide)⟩

end PdfServer

namespace PdfServer

/-- C7 counterexample: a parser output whose version string is present but
empty is reported as "Unknown", not as the parser's version string, because
the code tests `pdfData.version || "Unknown"` by JavaScript truthiness. -/
theorem version_empty_defaults_cex :
    (PdfData.version ⟨"x".data, 1, none, some []⟩) = some []
    ∧ (extractTextPipeline (some ⟨appPdfMime, "r.pdf".data, 5⟩) "p".data
        (ParseOutcome.ok ⟨"x".data, 1, none, some []⟩) false [] "t".data).resp.version
      = some "Unknown".data
    ∧ "Unknown".data ≠ ([] : JSStr) := ⟨rfl, by decide, by decide⟩

/-- C7 (amended): in both modes, `pages` is exactly the parser's reported
page count and `info` is the parser's info dictionary or the empty mapping
when absent; `version` is the parser's version string when that string is
non-empty, and the literal "Unknown" when it is absent or empty (JavaScript
falsy); the metadata is computed identically in upload mode and URL mode. -/
theorem metadata_normalization_amended (f : IncomingFile) (filePath : JSStr) (d : PdfData)
    (unlinkFails : Bool) (scratch0 : List JSStr) (now : JSStr)
    (urlField filenameField : Option JSStr) (st : Nat) (stext : JSStr)
    (hff : fileFilterOk f = true) (hsz : f.size ≤ maxFileSize)
    (hurl : jsTruthy urlField = true) (hok : 200 ≤ st ∧ st ≤ 299) :
    (extractTextPipeline (some f) filePath (ParseOutcome.ok d) unlinkFails scratch0 now).resp.pages
        = some d.numpages
    ∧ (extractTextPipeline (some f) filePath (ParseOutcome.ok d) unlinkFails scratch0 now).resp.info
        = some (d.info.getD [])
    ∧ (d.version = none ∨ d.version = some [] →
        (extractTextPipeline (some f) filePath (ParseOutcome.ok d) unlinkFails scratch0 now).resp.version
          = some "Unknown".data)
    ∧ (∀ v, d.version = some v → v ≠ [] →
        (extractTextPipeline (some f) filePath (ParseOutcome.ok d) unlinkFails scratch0 now).resp.version
          = some v)
    ∧ (extractTextPipeline (some f) filePath (ParseOutcome.ok d) unlinkFails scratch0 now).resp.pages
        = (extractTextUrlHandler urlField filenameField (FetchOutcome.httpResp st stext)
            (ParseOutcome.ok d) now).resp.pages
    ∧ (extractTextPipeline (some f) filePath (ParseOutcome.ok d) unlinkFails scratch0 now).resp.info
        = (extractTextUrlHandler urlField filenameField (FetchOutcome.httpResp st stext)
            (ParseOutcome.ok d) now).resp.info
    ∧ (extractTextPipeline (some f) filePath (ParseOutcome.ok d) unlinkFails scratch0 now).resp.version
        = (extractTextUrlHandler urlField filenameField (FetchOutcome.httpResp st stext)
            (ParseOutcome.ok d) now).resp.version := by
  refine ⟨?_, ?_, ?_, ?_, ?_, ?_, ?_⟩
  · simp [extractTextPipeline, hff, hsz, mkUploadSuccess]
  · simp [extractTextPipeline, hff, hsz, mkUploadSuccess]
  · rintro (hv | hv) <;>
      simp [extractTextPipeline, hff, hsz, mkUploadSuccess, jsOrUnknown, hv]
  · rintro v hv hne
    simp [extractTextPipeline, hff, hsz, mkUploadSuccess, jsOrUnknown, hv, hne]
  · simp [extractTextPipeline, hff, hsz, mkUploadSuccess,
      extractTextUrlHandler, hurl, hok, mkUrlSuccess]
  · simp [extractTextPipeline, hff, hsz, mkUploadSuccess,
      extractTextUrlHandler, hurl, hok, mkUrlSuccess]
  · simp [extractTextPipeline, hff, hsz, mkUploadSuccess,
      extractTextUrlHandler, hurl, hok, mkUrlSuccess]

theorem metadata_normalization_amended_witness :
    (fileFilterOk ⟨appPdfMime, "r.pdf".data, 5⟩ = true ∧ 5 ≤ maxFileSize
      ∧ jsTruthy (some "https://x.test/a.pdf".data) = true ∧ (200 ≤ 200 ∧ 200 ≤ 299)
      ∧ (some "1.4".data : Option JSStr) = some "1.4".data ∧ "1.4".data ≠ ([] : JSStr))
    ∧ ((extractTextPipeline (some ⟨appPdfMime, "r.pdf".data, 5⟩) "p".data
          (ParseOutcome.ok ⟨"x".data, 3, none, some "1.4".data⟩) false [] "t".data).resp.pages
        = some 3
      ∧ (extractTextPipeline (some ⟨appPdfMime, "r.pdf".data, 5⟩) "p".data
          (ParseOutcome.ok ⟨"x".data, 3, none, some "1.4".data⟩) false [] "t".data).resp.info
        = some ((none : Option (List (JSStr × JSStr))).getD [])
      ∧ (extractTextPipeline (some ⟨appPdfMime, "r.pdf".data, 5⟩) "p".data
          (ParseOutcome.ok ⟨"x".data, 3, none, some "1.4".data⟩) false [] "t".data).resp.version
        = some "1.4".data
      ∧ (extractTextPipeline (some ⟨appPdfMime, "r.pdf".data, 5⟩) "p".data
          (ParseOutcome.ok ⟨"x".data, 3, none, some "1.4".data⟩) false [] "t".data).resp.version
        = (extractTextUrlHandler (some "https://x.test/a.pdf".data) none
            (FetchOutcome.httpResp 200 "OK".data)
            (ParseOutcome.ok ⟨"x".data, 3, none, some "1.4".data⟩) "t".data).resp.version) :=
  ⟨⟨by decide, by decide, by decide, ⟨by decide, by decide⟩, rfl, by decide⟩,
    (metadata_normalization_amended ⟨appPdfMime, "r.pdf".data, 5⟩ "p".data
        ⟨"x".data, 3, none, some "1.4".data⟩ false [] "t".data
        (some "https://x.test/a.pdf".data) none 200 "OK".data
        (by decide) (by decide) (by decide) ⟨by decide, by decide⟩).1,
    (metadata_normalization_amended ⟨appPdfMime, "r.pdf".data, 5⟩ "p".data
        ⟨"x".data, 3, none, some "1.4".data⟩ false [] "t".data
        (some "https://x.test/a.pdf".data) none 200 "OK".data
        (by decide) (by decide) (by decide) ⟨by decide, by decide⟩).2.1,
    (metadata_normalization_amended ⟨appPdfMime, "r.pdf".data, 5⟩ "p".data
        ⟨"x".data, 3, none, some "1.4".data⟩ false [] "t".data
        (some "https://x.test/a.pdf".data) none 200 "OK".data
        (by decide) (by decide) (by decide) ⟨by decide, by decide⟩).2.2.2.1
      "1.4".data rfl (by decide),
    (metadata_normalization_amended ⟨appPdfMime, "r.pdf".data, 5⟩ "p".data
        ⟨"x".data, 3, none, some "1.4".data⟩ false [] "t".data
        (some "https://x.test/a.pdf".data) none 200 "OK".data
        (by decide) (by decide) (by decide) ⟨by decide, by decide⟩).2.2.2.2.2.2⟩

end PdfServer

namespace PdfServer

/-- C8 counterexample: when the client supplies the empty string as
`filename` in URL mode, the success response reports "Unknown" instead of
echoing the supplied value, because the code computes
`filename || "Unknown"` by JavaScript truthiness. -/
theorem empty_filename_not_echoed_cex :
    (extractTextUrlHandler (some "https://x.test/a.pdf".data) (some [])
        (FetchOutcome.httpResp 200 "OK".data) (ParseOutcome.ok ⟨"x".data, 1, none, none⟩)
        "t".data).resp.filename = some "Unknown".data
    ∧ some "Unknown".data ≠ (some ([] : JSStr)) := ⟨by decide, by decide⟩

/-- C8 (amended): an upload-mode success response contains `fileSize` (the
bytes received) and no `url` field; a URL-mode success response contains the
`url` field holding the original client-supplied string (even when a Google
Drive rewrite changed the fetched URL) and no `fileSize` field; a non-empty
supplied `filename` is echoed without validation, while a missing or empty
`filename` is replaced by the literal "Unknown". -/
theorem mode_fields_amended (f : IncomingFile) (filePath : JSStr) (d : PdfData)
    (unlinkFails : Bool) (scratch0 : List JSStr) (now : JSStr)
    (urlField filenameField : Option JSStr) (st : Nat) (stext : JSStr)
    (hff : fileFilterOk f = true) (hsz : f.size ≤ maxFileSize)
    (hurl : jsTruthy urlField = true) (hok : 200 ≤ st ∧ st ≤ 299) :
    (extractTextPipeline (some f) filePath (ParseOutcome.ok d) unlinkFails scratch0 now).resp.fileSize
        = some f.size
    ∧ (extractTextPipeline (some f) filePath (ParseOutcome.ok d) unlinkFails scratch0 now).resp.url
        = none
    ∧ (extractTextUrlHandler urlField filenameField (FetchOutcome.httpResp st stext)
          (ParseOutcome.ok d) now).resp.url = some (urlField.getD [])
    ∧ (extractTextUrlHandler urlField filenameField (FetchOutcome.httpResp st stext)
          (ParseOutcome.ok d) now).resp.fileSize = none
    ∧ (extractTextUrlHandler urlField filenameField (FetchOutcome.httpResp st stext)
          (ParseOutcome.ok d) now).fetchedUrl
        = some (convertGoogleDriveUrl (urlField.getD []))
    ∧ (∀ fn, filenameField = some fn → fn ≠ [] →
        (extractTextUrlHandler urlField filenameField (FetchOutcome.httpResp st stext)
          (ParseOutcome.ok d) now).resp.filename = some fn)
    ∧ (filenameField = none ∨ filenameField = some [] →
        (extractTextUrlHandler urlField filenameField (FetchOutcome.httpResp st stext)
          (ParseOutcome.ok d) now).resp.filename = some "Unknown".data) := by
  refine ⟨?_, ?_, ?_, ?_, ?_, ?_, ?_⟩
  · simp [extractTextPipeline, hff, hsz, mkUploadSuccess]
  · simp [extractTextPipeline, hff, hsz, mkUploadSuccess]
  · simp [extractTextUrlHandler, hurl, hok, mkUrlSuccess]
  · simp [extractTextUrlHandler, hurl, hok, mkUrlSuccess]
  · simp [extractTextUrlHandler, hurl, hok]
  · rintro fn rfl hne
    simp [extractTextUrlHandler, hurl, hok, mkUrlSuccess, jsOrUnknown, hne]
  · rintro (hv | hv) <;>
      simp [extractTextUrlHandler, hurl, hok, mkUrlSuccess, jsOrUnknown, hv]

theorem mode_fields_amended_witness :
    (fileFilterOk ⟨appPdfMime, "r.pdf".data, 5⟩ = true ∧ 5 ≤ maxFileSize
      ∧ jsTruthy (some "https://drive.google.com/file/d/abc/view".data) = true
      ∧ (200 ≤ 200 ∧ 200 ≤ 299))
    ∧ ((extractTextPipeline (some ⟨appPdfMime, "r.pdf".data, 5⟩) "p".data
          (ParseOutcome.ok ⟨"x".data, 1, none, none⟩) false [] "t".data).resp.fileSize = some 5
      ∧ (extractTextPipeline (some ⟨appPdfMime, "r.pdf".data, 5⟩) "p".data
          (ParseOutcome.ok ⟨"x".data, 1, none, none⟩) false [] "t".data).resp.url = none
      ∧ (extractTextUrlHandler (some "https://drive.google.com/file/d/abc/view".data)
          (some "cv.pdf".data) (FetchOutcome.httpResp 200 "OK".data)
          (ParseOutcome.ok ⟨"x".data, 1, none, none⟩) "t".data).resp.url
        = some ((some "https://drive.google.com/file/d/abc/view".data).getD [])
      ∧ (extractTextUrlHandler (some "https://drive.google.com/file/d/abc/view".data)
          (some "cv.pdf".data) (FetchOutcome.httpResp 200 "OK".data)
          (ParseOutcome.ok ⟨"x".data, 1, none, none⟩) "t".data).resp.fileSize = none
      ∧ (extractTextUrlHandler (some "https://drive.google.com/file/d/abc/view".data)
          (some "cv.pdf".data) (FetchOutcome.httpResp 200 "OK".data)
          (ParseOutcome.ok ⟨"x".data, 1, none, none⟩) "t".data).fetchedUrl
        = some (convertGoogleDriveUrl
            ((some "https://drive.google.com/file/d/abc/view".data).getD []))
      ∧ (extractTextUrlHandler (some "https://drive.google.com/file/d/abc/view".data)
          (some "cv.pdf".data) (FetchOutcome.httpResp 200 "OK".data)
          (ParseOutcome.ok ⟨"x".data, 1, none, none⟩) "t".data).resp.filename
        = some "cv.pdf".data) :=
  ⟨⟨by decide, by decide, by decide, ⟨by decide, by decide⟩⟩,
    (mode_fields_amended ⟨appPdfMime, "r.pdf".data, 5⟩ "p".data ⟨"x".data, 1, none, none⟩
        false [] "t".data (some "https://drive.google.com/file/d/abc/view".data)
        (some "cv.pdf".data) 200 "OK".data (by decide) (by decide) (by decide)
        ⟨by decide, by decide⟩).1,
    (mode_fields_amended ⟨appPdfMime, "r.pdf".data, 5⟩ "p".data ⟨"x".data, 1, none, none⟩
        false [] "t".data (some "https://drive.google.com/file/d/abc/view".data)
        (some "cv.pdf".data) 200 "OK".data (by decide) (by decide) (by decide)
        ⟨by decide, by decide⟩).2.1,
    (mode_fields_amended ⟨appPdfMime, "r.pdf".data, 5⟩ "p".data ⟨"x".data, 1, none, none⟩
        false [] "t".data (some "https://drive.google.com/file/d/abc/view".data)
        (some "cv.pdf".data) 200 "OK".data (by decide) (by decide) (by decide)
        ⟨by decide, by decide⟩).2.2.1,
    (mode_fields_amended ⟨appPdfMime, "r.pdf".data, 5⟩ "p".data ⟨"x".data, 1, none, none⟩
        false [] "t".data (some "https://drive.google.com/file/d/abc/view".data)
        (some "cv.pdf".data) 200 "OK".data (by decide) (by decide) (by decide)
        ⟨by decide, by decide⟩).2.2.2.1,
    (mode_fields_amended ⟨appPdfMime, "r.pdf".data, 5⟩ "p".data ⟨"x".data, 1, none, none⟩
        false [] "t".data (some "https://drive.google.com/file/d/abc/view".data)
        (some "cv.pdf".data) 200 "OK".data (by decide) (by decide) (by decide)
        ⟨by decide, by decide⟩).2.2.2.2.1,
    (mode_fields_amended ⟨appPdfMime, "r.pdf".data, 5⟩ "p".data ⟨"x".data, 1, none, none⟩
        false [] "t".data (some "https://drive.google.com/file/d/abc/view".data)
        (some "cv.pdf".data) 200 "OK".data (by decide) (by decide) (by decide)
        ⟨by decide, by decide⟩).2.2.2.2.2.1 "cv.pdf".data rfl (by decide)⟩

end PdfServer

namespace PdfServer

/-- C9: two POST /generate-hmac calls with the same data and secret produce
the same signature (the signature is a pure function of data and secret and
the call leaves the server state read by later calls unchanged, even though
the timestamps of the two calls differ), and a request omitting the secret
yields HTTP 400. -/
theorem hmac_deterministic_stateless (hmacHex : JSStr → JSStr → JSStr) (st : List JSStr)
    (d s now1 now2 : JSStr) (hd : d ≠ []) (hs : s ≠ []) :
    (generateHmacHandler hmacHex ⟨some d, some s⟩ now1 st).1.signature
        = (generateHmacHandler hmacHex ⟨some d, some s⟩ now2
            (generateHmacHandler hmacHex ⟨some d, some s⟩ now1 st).2).1.signature
    ∧ (generateHmacHandler hmacHex ⟨some d, some s⟩ now1 st).1.signature = some (hmacHex d s)
    ∧ (generateHmacHandler hmacHex ⟨some d, some s⟩ now1 st).2 = st
    ∧ (∀ body now stx, body.secret = none →
        (generateHmacHandler hmacHex body now stx).1.status = 400) := by
  have htd : jsTruthy (some d) = true := by simp [jsTruthy, hd]
  have hts : jsTruthy (some s) = true := by simp [jsTruthy, hs]
  refine ⟨?_, ?_, ?_, ?_⟩
  · simp [generateHmacHandler, htd, hts]
  · simp [generateHmacHandler, htd, hts]
  · simp [generateHmacHandler, htd, hts]
  · intro body now stx hsec
    have hts2 : jsTruthy body.secret = false := by simp [hsec, jsTruthy]
    by_cases hbd : jsTruthy body.data
    · simp [generateHmacHandler, hbd, hts2]
    · simp [generateHmacHandler, hbd]

theorem hmac_deterministic_stateless_witness :
    ("Hello, World!".data ≠ ([] : JSStr) ∧ "key".data ≠ ([] : JSStr))
    ∧ ((generateHmacHandler (fun a b => a ++ b) ⟨some "Hello, World!".data, some "key".data⟩
          "t1".data []).1.signature
        = (generateHmacHandler (fun a b => a ++ b) ⟨some "Hello, World!".data, some "key".data⟩
            "t2".data (generateHmacHandler (fun a b => a ++ b)
              ⟨some "Hello, World!".data, some "key".data⟩ "t1".data []).2).1.signature
      ∧ (generateHmacHandler (fun a b => a ++ b) ⟨some "Hello, World!".data, some "key".data⟩
          "t1".data []).1.signature = some ((fun a b => a ++ b) "Hello, World!".data "key".data)
      ∧ (generateHmacHandler (fun a b => a ++ b) ⟨some "Hello, World!".data, some "key".data⟩
          "t1".data []).2 = []
      ∧ (generateHmacHandler (fun a b => a ++ b) ⟨some "Hello, World!".data, none⟩
          "t3".data []).1.status = 400) :=
  ⟨⟨by decide, by decide⟩,
    (hmac_deterministic_stateless (fun a b => a ++ b) [] "Hello, World!".data "key".data
        "t1".data "t2".data (by decide) (by decide)).1,
    (hmac_deterministic_stateless (fun a b => a ++ b) [] "Hello, World!".data "key".data
        "t1".data "t2".data (by decide) (by decide)).2.1,
    (hmac_deterministic_stateless (fun a b => a ++ b) [] "Hello, World!".data "key".data
        "t1".data "t2".data (by decide) (by decide)).2.2.1,
    (hmac_deterministic_stateless (fun a b => a ++ b) [] "Hello, World!".data "key".data
        "t1".data "t2".data (by decide) (by decide)).2.2.2
      ⟨some "Hello, World!".data, none⟩ "t3".data [] rfl⟩

/-- C10: a POST /generate-hmac request in which `data` or `secret` is present
but equal to the empty string is rejected with HTTP 400 and the corresponding
missing-parameter error (presence is tested by JavaScript truthiness), and a
success response can only arise when neither field is the empty string. -/
theorem hmac_empty_params_rejected (hmacHex : JSStr → JSStr → JSStr) (body : HmacBody)
    (now : JSStr) (st : List JSStr) :
    (body.data = some [] →
        (generateHmacHandler hmacHex body now st).1.status = 400
        ∧ (generateHmacHandler hmacHex body now st).1.error
            = some "Missing data parameter".data)
    ∧ (jsTruthy body.data = true → body.secret = some [] →
        (generateHmacHandler hmacHex body now st).1.status = 400
        ∧ (generateHmacHandler hmacHex body now st).1.error
            = some "Missing secret parameter".data)
    ∧ ((generateHmacHandler hmacHex body now st).1.success = some true →
        body.data ≠ some [] ∧ body.secret ≠ some []) := by
  refine ⟨?_, ?_, ?_⟩
  · intro hbd
    have htd : jsTruthy body.data = false := by simp [hbd, jsTruthy]
    constructor <;> simp [generateHmacHandler, htd]
  · intro htd hbs
    have hts : jsTruthy body.secret = false := by simp [hbs, jsTruthy]
    constructor <;> simp [generateHmacHandler, htd, hts]
  · intro hsuc
    constructor
    · intro hbd
      have htd : jsTruthy body.data = false := by simp [hbd, jsTruthy]
      simp [generateHmacHandler, htd] at hsuc
    · intro hbs
      have hts : jsTruthy body.secret = false := by simp [hbs, jsTruthy]
      by_cases htd : jsTruthy body.data <;>
        simp [generateHmacHandler, htd, hts] at hsuc

theorem hmac_empty_params_rejected_witness :
    ((generateHmacHandler (fun a b => a ++ b) ⟨some [], some "key".data⟩ "t".data []).1.status
        = 400
      ∧ (generateHmacHandler (fun a b => a ++ b) ⟨some [], some "key".data⟩ "t".data []).1.error
        = some "Missing data parameter".data)
    ∧ ((generateHmacHandler (fun a b => a ++ b) ⟨some "abc".data, some []⟩ "t".data []).1.status
        = 400
      ∧ (generateHmacHandler (fun a b => a ++ b) ⟨some "abc".data, some []⟩ "t".data []).1.error
        = some "Missing secret parameter".data) :=
  ⟨(hmac_empty_params_rejected (fun a b => a ++ b) ⟨some [], some "key".data⟩ "t".data []).1
      rfl,
    (hmac_empty_params_rejected (fun a b => a ++ b) ⟨some "abc".data, some []⟩ "t".data []).2.1
      (by decide) rfl⟩

end PdfServer
